import Mathlib

/-!
Verification development for the content-analysis-mcp repository.

The repository ships a Node MCP server (`src/index.js`) that exposes four
tools and delegates the actual scoring work to two Python analyzer scripts
(`tools/content-quality-analyzer.py`, `tools/content-quality-analyzer-direct.py`)
that are not part of the available sources.  The JS server is embedded
directly from `src/index.js`; the scoring and aggregation engine is modelled
from the specification (spec.md sections 3, 4 and 8), as marked on each
definition.

Scores are rationals (ℚ); the spec only requires real numbers in [0,1] and
every formula it gives is rational-valued.
-/

namespace ContentQuality

/-- Clamp a rational into the unit interval [0,1]. -/
def clamp01 (x : ℚ) : ℚ := max 0 (min 1 x)

/-- Membership in the closed unit interval. -/
def inUnit (x : ℚ) : Prop := 0 ≤ x ∧ x ≤ 1

/-- Mean of a list of rationals, 0 for the empty list. -/
def mean (xs : List ℚ) : ℚ := if xs.length = 0 then 0 else xs.sum / (xs.length : ℚ)

/-- Modelled from the spec: open-schema Document metadata (§3); only the
fields the claims mention are carried, each optional with default absent. -/
structure Metadata where
  site_domain : Option String := none
  hierarchy : Option String := none
  section_order : Option Int := none
  content_type : Option String := none
  deriving DecidableEq, Repr

/-- Modelled from the spec: a Document is an id, raw text and metadata (§3). -/
structure Document where
  id : String
  text : String
  metadata : Metadata := {}
  deriving DecidableEq, Repr

/-- Modelled from the spec: the five dimension scores and the derived
overall score (§3, ScoreVector). -/
structure ScoreVector where
  word_precision : ℚ
  modal_certainty : ℚ
  structure_efficiency : ℚ
  punctuation_impact : ℚ
  semantic_consistency : ℚ
  overall : ℚ
  deriving DecidableEq, Repr

/-- The all-zero ScoreVector assigned to empty text (§4.1 contract). -/
def ScoreVector.zero : ScoreVector := ⟨0, 0, 0, 0, 0, 0⟩

/-- Split a character list at every character satisfying `p`, keeping empty
segments, like JS `String.split` / Lean `String.split`. -/
def splitChars (p : Char → Bool) : List Char → List (List Char)
  | [] => [[]]
  | c :: cs =>
    match splitChars p cs with
    | [] => [[c]]
    | a :: rest => if p c then [] :: a :: rest else (c :: a) :: rest

/-- Tokenization of a character list: lowercase, split at non-letter
characters, drop empty segments. -/
def tokensAux (cs : List Char) : List String :=
  ((splitChars (fun c => !c.isAlpha) (cs.map Char.toLower)).filter
    (fun l => !l.isEmpty)).map (fun l => String.mk l)

/-- Modelled from the spec: tokenize into lowercase words, splitting at
non-letter characters (§4.1 Word Precision, "tokenize into words"). -/
def tokens (t : String) : List String := tokensAux t.toList

/-- Modelled from the spec: sentence segmentation at terminal punctuation;
each segment is kept as its token list, empty segments dropped (§4.1). -/
def sentences (t : String) : List (List String) :=
  ((splitChars (fun c => c == '.' || c == '!' || c == '?') t.toList).map
    tokensAux).filter (fun s => !s.isEmpty)

/-- Count of tokens of `ws` that occur in the lexicon `lex`. -/
def countIn (lex : List String) (ws : List String) : Nat :=
  (ws.filter (fun w => lex.contains w)).length

/-- Modelled from the spec: precise-vocabulary lexicon; the spec leaves the
concrete word list as configuration (§9 open question), a sample is fixed. -/
def preciseWords : List String :=
  ["specific", "measurable", "validated", "exactly", "benchmark", "percent",
   "data", "steps"]

/-- Modelled from the spec: vague-vocabulary lexicon; concrete list is
configuration (§9 open question), a sample is fixed. -/
def vagueWords : List String :=
  ["stuff", "things", "very", "really", "nice", "good", "amazing", "best"]

/-- Modelled from the spec: high-certainty modal markers, the four examples
the spec names (§4.1 Modal Certainty). -/
def certaintyMarkers : List String := ["will", "is", "must", "demonstrates"]

/-- Modelled from the spec: hedging modal markers, the four examples the
spec names (§4.1 Modal Certainty). -/
def hedgeMarkers : List String := ["might", "perhaps", "could", "seems"]

/-- Modelled from the spec: transition-word lexicon; concrete list is
configuration (§9 open question), a sample is fixed. -/
def transitionWords : List String :=
  ["however", "therefore", "furthermore", "moreover", "additionally",
   "consequently", "first", "second", "finally"]

/-- Modelled from the spec: penalty weight applied to vague words in the
word-precision score; the exact value is configuration (§9). -/
def penaltyWeight : ℚ := 1 / 2

/-- Modelled from the spec: the ε preventing division by zero in the modal
certainty formula (§4.1); the exact value is configuration. -/
def epsilon : ℚ := 1 / 1000

/-- Number of high-certainty markers in the text's tokens. -/
def certCount (t : String) : Nat := countIn certaintyMarkers (tokens t)

/-- Number of hedging markers in the text's tokens. -/
def hedgeCount (t : String) : Nat := countIn hedgeMarkers (tokens t)

/-- Modelled from the spec: Word Precision — (precise − vague·penalty)
normalized by token count, clamped to [0,1]; empty token set scores 0 (§4.1). -/
def wordPrecision (t : String) : ℚ :=
  if (tokens t).isEmpty then 0
  else clamp01 (((countIn preciseWords (tokens t) : ℚ) -
      penaltyWeight * (countIn vagueWords (tokens t) : ℚ)) / ((tokens t).length : ℚ))

/-- Modelled from the spec: Modal Certainty — no markers at all yields the
neutral midpoint 1/2; otherwise certainty / (certainty + hedge + ε) (§4.1). -/
def modalCertainty (t : String) : ℚ :=
  if certCount t + hedgeCount t = 0 then 1 / 2
  else (certCount t : ℚ) / ((certCount t : ℚ) + (hedgeCount t : ℚ) + epsilon)

/-- Modelled from the spec: sentence-length variance over the sentence token
counts (§4.1 Structure Efficiency). -/
def sentenceLengthVariance (t : String) : ℚ :=
  mean (((sentences t).map (fun s => (s.length : ℚ))).map
    (fun x => (x - mean ((sentences t).map (fun s => (s.length : ℚ))))^2))

/-- Modelled from the spec: lower variance scores higher (§4.1). -/
def varianceScore (t : String) : ℚ := 1 / (1 + sentenceLengthVariance t)

/-- Modelled from the spec: presence of paragraph/heading boundaries (§4.1). -/
def boundaryScore (t : String) : ℚ := if t.toList.contains '\n' then 1 else 0

/-- Modelled from the spec: transition-word density, pre-normalized to [0,1]
(§4.1); the density scale factor is configuration. -/
def transitionScore (t : String) : ℚ :=
  clamp01 (10 * (countIn transitionWords (tokens t) : ℚ) / ((tokens t).length : ℚ))

/-- Modelled from the spec: Structure Efficiency — fixed weighted sum of the
three pre-normalized sub-metrics (§4.1); empty token set scores 0. -/
def structureEfficiency (t : String) : ℚ :=
  if (tokens t).isEmpty then 0
  else clamp01 ((2/5) * varianceScore t + (3/10) * boundaryScore t +
    (3/10) * transitionScore t)

/-- Punctuation marks recognized by the punctuation-impact metric. -/
def punctMarks : List Char := ['.', ',', '!', '?', ';', ':']

/-- Modelled from the spec: ratio of distinct punctuation marks used to text
length (§4.1 Punctuation Impact). -/
def punctBase (t : String) : ℚ :=
  (((t.toList.filter (fun c => punctMarks.contains c)).dedup.length : ℚ)) /
    ((t.toList.length : ℚ))

/-- Density of exclamation marks in the raw character stream. -/
def exclamationDensity (t : String) : ℚ :=
  ((t.toList.filter (fun c => c == '!')).length : ℚ) / ((t.toList.length : ℚ))

/-- Modelled from the spec: exclamation-density threshold (configuration). -/
def exThreshold : ℚ := 1 / 20

/-- Modelled from the spec: slope of the diminishing exclamation penalty
curve (configuration). -/
def penaltySlope : ℚ := 10

/-- Modelled from the spec: diminishing (not cliff-edged) multiplicative
penalty once exclamation density exceeds the threshold (§4.1). -/
def exclamationPenalty (t : String) : ℚ :=
  if exThreshold < exclamationDensity t then
    1 / (1 + penaltySlope * (exclamationDensity t - exThreshold))
  else 1

/-- Modelled from the spec: Punctuation Impact — diversity ratio with the
exclamation penalty, clamped; zero punctuation scores 0 (§4.1). -/
def punctuationImpact (t : String) : ℚ :=
  if (t.toList.filter (fun c => punctMarks.contains c)).isEmpty then 0
  else clamp01 (punctBase t * exclamationPenalty t)

/-- All (unordered) pairs of distinct positions of a list. -/
def pairs {α : Type} : List α → List (α × α)
  | [] => []
  | x :: xs => xs.map (fun y => (x, y)) ++ pairs xs

/-- Modelled from the spec: lexical-overlap similarity between two segments
(§4.1 Semantic Consistency, "pairwise lexical-overlap"). -/
def jaccard (a b : List String) : ℚ :=
  if ((a ++ b).dedup.length : Nat) = 0 then 1
  else ((a.dedup.filter (fun w => b.contains w)).length : ℚ) /
    (((a ++ b).dedup.length : ℚ))

/-- Pairwise similarities of a segment list. -/
def pairwiseSimilarities (segs : List (List String)) : List ℚ :=
  (pairs segs).map (fun p => jaccard p.1 p.2)

/-- Modelled from the spec: Semantic Consistency — mean pairwise similarity
between segments; a single-segment document defaults to 1 (§4.1). -/
def semanticConsistency (t : String) : ℚ :=
  if (sentences t).length ≤ 1 then 1
  else clamp01 (mean (pairwiseSimilarities (sentences t)))

/-- Modelled from the spec: the overall score is the mean of the five
dimension scores under the default equal weights 0.2 each (§4.1 Overall). -/
def overallOf (a b c d e : ℚ) : ℚ := (a + b + c + d + e) / 5

/-- Modelled from the spec: DocumentScorer on raw text — the empty string is
defined as the all-zero ScoreVector (§4.1 contract); otherwise the five
dimension metrics and their overall combination. -/
def scoreText (t : String) : ScoreVector :=
  if t = "" then ScoreVector.zero
  else
    { word_precision := wordPrecision t
      modal_certainty := modalCertainty t
      structure_efficiency := structureEfficiency t
      punctuation_impact := punctuationImpact t
      semantic_consistency := semanticConsistency t
      overall := overallOf (wordPrecision t) (modalCertainty t)
        (structureEfficiency t) (punctuationImpact t) (semanticConsistency t) }

/-- Modelled from the spec: `score(document) -> ScoreVector` (§4.1); the
score depends only on the document text. -/
def score (d : Document) : ScoreVector := scoreText d.text

/-- Modelled from the spec: analysis strategies (§4.2). -/
inductive Mode where
  | individual
  | website
  | competitive
  deriving DecidableEq, Repr

/-- Modelled from the spec: the distinct `site_domain` values among the
collection's documents (§3, §4.2). -/
def distinctDomains (docs : List Document) : List String :=
  (docs.filterMap (fun d => d.metadata.site_domain)).dedup

/-- Modelled from the spec: a document carries hierarchical metadata when it
has `hierarchy`, `section_order` or `content_type` (§4.2). -/
def hasHierarchicalMetadata (d : Document) : Bool :=
  d.metadata.hierarchy.isSome || d.metadata.section_order.isSome ||
    d.metadata.content_type.isSome

/-- Modelled from the spec: ModeDetector.detect, ordered decision table with
first match winning (§4.2). -/
def detect (docs : List Document) : Mode :=
  if 1 < (distinctDomains docs).length then Mode.competitive
  else if docs.any hasHierarchicalMetadata then Mode.website
  else Mode.individual

/-- Mean, minimum and maximum of one scored quantity (§4.5). -/
structure Stats where
  mean : ℚ
  min : ℚ
  max : ℚ
  deriving DecidableEq, Repr

/-- Modelled from the spec: mean/min/max of a list of scores; the empty list
yields zeroed stats (§4.5). -/
def statsOf (xs : List ℚ) : Stats :=
  match xs with
  | [] => ⟨0, 0, 0⟩
  | x :: rest =>
    ⟨(x :: rest).sum / ((x :: rest).length : ℚ),
     rest.foldl Min.min x, rest.foldl Max.max x⟩

/-- Modelled from the spec: collection aggregate statistics plus best/worst
document ids (§4.5, §3 AnalysisReport). -/
structure Aggregates where
  word_precision : Stats
  modal_certainty : Stats
  structure_efficiency : Stats
  punctuation_impact : Stats
  semantic_consistency : Stats
  overall : Stats
  best_document_id : Option String
  worst_document_id : Option String
  deriving DecidableEq, Repr

/-- Modelled from the spec: best document id — maximal overall score, ties
broken by earliest insertion (§4.5). -/
def bestDocumentId (scored : List (String × ScoreVector)) : Option String :=
  match scored with
  | [] => none
  | x :: xs =>
    some (xs.foldl (fun b c => if b.2.overall < c.2.overall then c else b) x).1

/-- Modelled from the spec: worst document id — minimal overall score, ties
broken by earliest insertion (§4.5). -/
def worstDocumentId (scored : List (String × ScoreVector)) : Option String :=
  match scored with
  | [] => none
  | x :: xs =>
    some (xs.foldl (fun b c => if c.2.overall < b.2.overall then c else b) x).1

/-- Modelled from the spec: AggregationReporter.aggregate — per-dimension and
overall mean/min/max plus best/worst ids; pure function of the score vectors
received, total on the empty collection (§4.5). -/
def aggregate (scored : List (String × ScoreVector)) : Aggregates :=
  { word_precision := statsOf (scored.map (fun p => p.2.word_precision))
    modal_certainty := statsOf (scored.map (fun p => p.2.modal_certainty))
    structure_efficiency := statsOf (scored.map (fun p => p.2.structure_efficiency))
    punctuation_impact := statsOf (scored.map (fun p => p.2.punctuation_impact))
    semantic_consistency := statsOf (scored.map (fun p => p.2.semantic_consistency))
    overall := statsOf (scored.map (fun p => p.2.overall))
    best_document_id := bestDocumentId scored
    worst_document_id := worstDocumentId scored }

/-- The zeroed aggregate value produced for an empty collection. -/
def Aggregates.empty : Aggregates :=
  ⟨⟨0, 0, 0⟩, ⟨0, 0, 0⟩, ⟨0, 0, 0⟩, ⟨0, 0, 0⟩, ⟨0, 0, 0⟩, ⟨0, 0, 0⟩, none, none⟩

/-- Modelled from the spec: the whole pipeline on a collection — mode
detection, per-document scoring, aggregation (§2 control flow). -/
def analyze (docs : List Document) : Mode × Aggregates :=
  (detect docs, aggregate (docs.map (fun d => (d.id, score d))))

/-! ### The MCP server, embedded from `src/index.js` -/

/-- The `analysis_mode` enum of the `analyze_content_quality` input schema,
`src/index.js` lines 63-68. -/
def analysisModeEnum : List String := ["auto", "individual", "website", "competitive"]

/-- The `analysis_mode` enum of the `analyze_text_direct` input schema,
`src/index.js` lines 98-103: only `individual`. -/
def textDirectModeEnum : List String := ["individual"]

/-- The mode `analyzeContentQuality` forwards to the analyzer: the
destructuring default `analysis_mode = 'auto'` of `src/index.js` line 236,
with a present argument passed through unchanged. -/
def analyzeContentQualityMode (analysis_mode : Option String) : String :=
  analysis_mode.getD "auto"

/-- Arguments of the `analyze_text_direct` tool as the handler destructures
them (`src/index.js` line 170); absent fields are `none`. -/
structure TextDirectArgs where
  text : Option String := none
  analysis_mode : Option String := none
  deriving DecidableEq, Repr

/-- Embedded from `src/index.js` lines 169-200 (`analyzeTextDirect`): the
guard `if (!text) throw new Error('text is required')` fires on a missing
text and on the empty string (both falsy in JS); otherwise the handler
forwards the text and the mode (default `individual`) to the analyzer.
The result models what is forwarded. -/
def analyzeTextDirect (args : TextDirectArgs) : Except String (String × String) :=
  match args.text with
  | none => Except.error "text is required"
  | some t =>
    if t = "" then Except.error "text is required"
    else Except.ok (t, args.analysis_mode.getD "individual")

/-- Outcome of the spawned Python process as `runPythonScript` observes it:
either the `close` event with an exit code (null possible in JS), or the
`error` event when the process failed to start. -/
inductive ProcEvent where
  | close (code : Option Int)
  | spawnError (msg : String)
  deriving DecidableEq, Repr

/-- A resolved `runPythonScript` promise: accumulated stdout and stderr. -/
structure ProcResult where
  stdout : String
  stderr : String
  deriving DecidableEq, Repr

/-- A rejected `runPythonScript` promise: message plus accumulated stdout
and stderr (`src/index.js` lines 511-524). -/
structure ProcFailure where
  message : String
  stdout : String
  stderr : String
  deriving DecidableEq, Repr

/-- Rendering of the JS exit code in the template string: a number prints
as itself, null prints as "null". -/
def codeStr : Option Int → String
  | some n => toString n
  | none => "null"

/-- Embedded from `src/index.js` lines 488-527 (`runPythonScript`): resolve
with stdout/stderr exactly on exit code 0; reject with a message naming the
exit code on any other close; reject with a message naming the spawn
failure on the `error` event.  Both rejections carry stdout and stderr. -/
def runPythonScript (ev : ProcEvent) (stdout stderr : String) :
    Except ProcFailure ProcResult :=
  match ev with
  | ProcEvent.close code =>
    if code = some 0 then Except.ok ⟨stdout, stderr⟩
    else Except.error
      ⟨"Python script exited with code " ++ codeStr code, stdout, stderr⟩
  | ProcEvent.spawnError msg =>
    Except.error ⟨"Failed to start Python script: " ++ msg, stdout, stderr⟩

/-- A JS value reachable from the `helpContent[topic]` lookup: one of the
four string properties of the object literal, or a function value inherited
from `Object.prototype`. -/
inductive JsValue where
  | str (s : String)
  | fn (name : String)
  deriving DecidableEq, Repr

/-- The `modes` help text of `src/index.js` lines 308-349 (its heading line
stands for the full prose, which no claim inspects). -/
def modesText : String := "# Analysis Modes"

/-- The `setup` help text of `src/index.js` lines 351-387 (heading line). -/
def setupText : String := "# Setup Guide"

/-- The `metadata` help text of `src/index.js` lines 389-422 (heading line). -/
def metadataText : String := "# Enhanced Metadata Structure"

/-- The `examples` help text of `src/index.js` lines 424-472 (heading line). -/
def examplesText : String := "# Usage Examples"

/-- The property names every plain JS object literal inherits from
`Object.prototype`; indexing `helpContent` with one of them yields the
inherited (truthy, non-string) value, not `undefined`. -/
def objectPrototypeProps : List String :=
  ["constructor", "hasOwnProperty", "isPrototypeOf", "propertyIsEnumerable",
   "toLocaleString", "toString", "valueOf", "__defineGetter__",
   "__defineSetter__", "__lookupGetter__", "__lookupSetter__", "__proto__"]

/-- Embedded from `src/index.js` lines 307-473: the JS property lookup
`helpContent[topic]` on the help object literal — the four own string
properties, then the prototype chain, then `undefined` (`none`). -/
def helpContent (topic : String) : Option JsValue :=
  if topic = "modes" then some (JsValue.str modesText)
  else if topic = "setup" then some (JsValue.str setupText)
  else if topic = "metadata" then some (JsValue.str metadataText)
  else if topic = "examples" then some (JsValue.str examplesText)
  else if topic ∈ objectPrototypeProps then some (JsValue.fn topic)
  else none

/-- JS truthiness of a looked-up help value: a string is truthy when
nonempty; a function value is always truthy. -/
def JsValue.truthy : JsValue → Bool
  | JsValue.str s => s != ""
  | JsValue.fn _ => true

/-- Embedded from `src/index.js` lines 304-483 (`getAnalysisHelp`): topic
defaults to `modes`; the payload is `helpContent[topic] || helpContent.modes`,
i.e. the looked-up value when truthy, else the modes text. -/
def getAnalysisHelp (topic : Option String) : JsValue :=
  match helpContent (topic.getD "modes") with
  | some v => if v.truthy then v else JsValue.str modesText
  | none => JsValue.str modesText

/-! ## Shared lemmas -/

theorem clamp01_mem (x : ℚ) : inUnit (clamp01 x) := by
  unfold clamp01 inUnit
  constructor
  · exact le_max_left 0 _
  · exact max_le (by norm_num) (min_le_left 1 x)

theorem wordPrecision_mem (t : String) : inUnit (wordPrecision t) := by
  unfold wordPrecision
  split_ifs with h
  · exact ⟨le_refl 0, by norm_num⟩
  · exact clamp01_mem _

theorem modalCertainty_mem (t : String) : inUnit (modalCertainty t) := by
  unfold modalCertainty
  split_ifs with h
  · exact ⟨by norm_num, by norm_num⟩
  · have hc : (0 : ℚ) ≤ (certCount t : ℚ) := Nat.cast_nonneg _
    have hh : (0 : ℚ) ≤ (hedgeCount t : ℚ) := Nat.cast_nonneg _
    have he : (0 : ℚ) < epsilon := by unfold epsilon; norm_num
    have hd : (0 : ℚ) < (certCount t : ℚ) + (hedgeCount t : ℚ) + epsilon := by linarith
    constructor
    · exact div_nonneg hc hd.le
    · rw [div_le_one hd]; linarith

theorem structureEfficiency_mem (t : String) : inUnit (structureEfficiency t) := by
  unfold structureEfficiency
  split_ifs with h
  · exact ⟨le_refl 0, by norm_num⟩
  · exact clamp01_mem _

theorem punctuationImpact_mem (t : String) : inUnit (punctuationImpact t) := by
  unfold punctuationImpact
  split_ifs with h
  · exact ⟨le_refl 0, by norm_num⟩
  · exact clamp01_mem _

theorem semanticConsistency_mem (t : String) : inUnit (semanticConsistency t) := by
  unfold semanticConsistency
  split_ifs with h
  · exact ⟨by norm_num, le_refl 1⟩
  · exact clamp01_mem _

theorem overallOf_mem (a b c d e : ℚ) (ha : inUnit a) (hb : inUnit b)
    (hc : inUnit c) (hd : inUnit d) (he : inUnit e) : inUnit (overallOf a b c d e) := by
  obtain ⟨ha0, ha1⟩ := ha
  obtain ⟨hb0, hb1⟩ := hb
  obtain ⟨hc0, hc1⟩ := hc
  obtain ⟨hd0, hd1⟩ := hd
  obtain ⟨he0, he1⟩ := he
  unfold overallOf inUnit
  constructor
  · apply div_nonneg (by linarith) (by norm_num)
  · rw [div_le_one (by norm_num : (0 : ℚ) < 5)]; linarith

/-! ## Claims -/

/-- C1: for every document scored by the engine, each of the five dimension
scores and the derived overall score lies in [0,1], and overall is the fixed
total combination `overallOf` of the five dimension scores. -/
theorem score_dimensions_and_overall_in_unit (d : Document) :
    inUnit (score d).word_precision ∧ inUnit (score d).modal_certainty ∧
    inUnit (score d).structure_efficiency ∧ inUnit (score d).punctuation_impact ∧
    inUnit (score d).semantic_consistency ∧ inUnit (score d).overall ∧
    (score d).overall = overallOf (score d).word_precision (score d).modal_certainty
      (score d).structure_efficiency (score d).punctuation_impact
      (score d).semantic_consistency := by
  unfold score scoreText
  by_cases h : d.text = ""
  · rw [if_pos h]
    unfold ScoreVector.zero
    refine ⟨⟨le_refl 0, by norm_num⟩, ⟨le_refl 0, by norm_num⟩, ⟨le_refl 0, by norm_num⟩,
      ⟨le_refl 0, by norm_num⟩, ⟨le_refl 0, by norm_num⟩, ⟨le_refl 0, by norm_num⟩, ?_⟩
    unfold overallOf
    norm_num
  · rw [if_neg h]
    exact ⟨wordPrecision_mem _, modalCertainty_mem _, structureEfficiency_mem _,
      punctuationImpact_mem _, semanticConsistency_mem _,
      overallOf_mem _ _ _ _ _ (wordPrecision_mem _) (modalCertainty_mem _)
        (structureEfficiency_mem _) (punctuationImpact_mem _) (semanticConsistency_mem _),
      rfl⟩

/-- C2: ModeDetector.detect applies the first-match-wins decision order:
competitive exactly when more than one distinct `site_domain` is present;
otherwise website exactly when some document carries hierarchical metadata;
otherwise individual. -/
theorem detect_first_match_decision_order (docs : List Document) :
    (detect docs = Mode.competitive ↔ 1 < (distinctDomains docs).length) ∧
    (detect docs = Mode.website ↔
      (distinctDomains docs).length ≤ 1 ∧ docs.any hasHierarchicalMetadata = true) ∧
    (detect docs = Mode.individual ↔
      (distinctDomains docs).length ≤ 1 ∧ docs.any hasHierarchicalMetadata = false) := by
  unfold detect
  split_ifs with h1 h2 <;> simp_all [not_lt]

/-- C3 counterexample: the `analyze_text_direct` handler rejects the empty
string — the JS guard `if (!text)` treats `""` as missing — so an
empty-text document is not accepted by the text-analysis entry point. -/
theorem analyzeTextDirect_rejects_empty_text :
    analyzeTextDirect { text := some "", analysis_mode := none } =
      Except.error "text is required" := rfl

/-- C3 amended: the spec-modelled scorer is total on the empty string and
maps it to the all-zero ScoreVector, but the text-analysis entry point
`analyzeTextDirect` rejects the empty string with `text is required`
instead of accepting it. -/
theorem empty_text_scored_zero_entry_point_rejects :
    (∀ (i : String) (m : Metadata),
      score { id := i, text := "", metadata := m } = ScoreVector.zero) ∧
    analyzeTextDirect { text := some "", analysis_mode := none } =
      Except.error "text is required" :=
  ⟨fun _ _ => rfl, rfl⟩

/-- C4: scoring is a pure function of the document's text and metadata —
two documents agreeing on text and metadata receive identical ScoreVectors
regardless of identity — and the whole pipeline is referentially
transparent: equal input collections yield the same report. -/
theorem engine_deterministic :
    (∀ d₁ d₂ : Document, d₁.text = d₂.text → d₁.metadata = d₂.metadata →
      score d₁ = score d₂) ∧
    (∀ c₁ c₂ : List Document, c₁ = c₂ → analyze c₁ = analyze c₂) := by
  constructor
  · intro d₁ d₂ ht _
    unfold score
    rw [ht]
  · intro c₁ c₂ hc
    rw [hc]

/-- C4 witness: two documents differing only in id score identically, and
the pipeline agrees with itself on a concrete collection. -/
theorem engine_deterministic_witness :
    score { id := "a", text := "it will rain", metadata := {} } =
      score { id := "b", text := "it will rain", metadata := {} } ∧
    analyze [{ id := "a", text := "x", metadata := {} }] =
      analyze [{ id := "a", text := "x", metadata := {} }] :=
  ⟨engine_deterministic.1 _ _ rfl rfl, engine_deterministic.2 _ _ rfl⟩

/-- C5 counterexample: the empty-text document contains no certainty and no
hedging markers, yet its modal_certainty score is 0, not the neutral
midpoint 1/2 — the all-zero contract for empty text wins. -/
theorem modal_certainty_zero_on_empty_text :
    certCount "" = 0 ∧ hedgeCount "" = 0 ∧
    (score { id := "e", text := "", metadata := {} }).modal_certainty ≠ 1 / 2 := by
  refine ⟨rfl, rfl, ?_⟩
  have h0 : (score { id := "e", text := "", metadata := {} }).modal_certainty = 0 := rfl
  rw [h0]
  norm_num

/-- C5 amended: for every document with nonempty text, no modal markers at
all yields the neutral midpoint 1/2, and when markers are present the
modal_certainty score is certainty / (certainty + hedge + ε); the empty
string is instead scored all-zero by the scorer's contract. -/
theorem modal_certainty_formula_nonempty (d : Document) (hne : d.text ≠ "") :
    (certCount d.text + hedgeCount d.text = 0 → (score d).modal_certainty = 1 / 2) ∧
    (certCount d.text + hedgeCount d.text ≠ 0 →
      (score d).modal_certainty =
        (certCount d.text : ℚ) /
          ((certCount d.text : ℚ) + (hedgeCount d.text : ℚ) + epsilon)) := by
  unfold score scoreText
  rw [if_neg hne]
  constructor
  · intro h0
    show modalCertainty d.text = 1 / 2
    unfold modalCertainty
    rw [if_pos h0]
  · intro h0
    show modalCertainty d.text = _
    unfold modalCertainty
    rw [if_neg h0]

/-- C5 amended witness: a marker-free nonempty text scores 1/2, and a text
containing "will" scores by the ε-formula. -/
theorem modal_certainty_formula_nonempty_witness :
    (score { id := "w1", text := "hello there", metadata := {} }).modal_certainty = 1 / 2 ∧
    (score { id := "w2", text := "it will rain", metadata := {} }).modal_certainty =
      (certCount "it will rain" : ℚ) /
        ((certCount "it will rain" : ℚ) + (hedgeCount "it will rain" : ℚ) + epsilon) :=
  ⟨(modal_certainty_formula_nonempty
      { id := "w1", text := "hello there", metadata := {} } (by decide)).1 (by decide),
   (modal_certainty_formula_nonempty
      { id := "w2", text := "it will rain", metadata := {} } (by decide)).2 (by decide)⟩

/-- C6 counterexample: the `analysis_mode` schema enum does not contain
"AUTO", and the handler forwards a present argument unchanged without case
normalization — the selector is case-sensitive, not case-insensitive. -/
theorem analysis_mode_not_case_insensitive :
    "AUTO" ∉ analysisModeEnum ∧ analyzeContentQualityMode (some "AUTO") = "AUTO" :=
  ⟨by decide, rfl⟩

/-- C6 amended: the selector's schema enum is exactly the four lowercase
words auto, individual, website, competitive, matched case-sensitively; the
handler defaults to auto when the argument is omitted and otherwise
forwards the given string unchanged. -/
theorem analysis_mode_enum_and_default :
    analysisModeEnum = ["auto", "individual", "website", "competitive"] ∧
    analyzeContentQualityMode none = "auto" ∧
    (∀ s : String, analyzeContentQualityMode (some s) = s) :=
  ⟨rfl, rfl, fun _ => rfl⟩

/-- C7: aggregation over an empty collection returns the zeroed aggregates
(mean/min/max 0 for every dimension and overall, no best/worst id) without
failing. -/
theorem aggregate_empty_returns_zeroed :
    aggregate [] = Aggregates.empty ∧ statsOf [] = ⟨0, 0, 0⟩ :=
  ⟨rfl, rfl⟩

/-- C8: runPythonScript resolves with the accumulated stdout/stderr exactly
on exit code 0; every nonzero exit code rejects with a message naming the
code, and a spawn failure rejects with a message naming it; both rejections
carry the accumulated stdout and stderr. -/
theorem runPythonScript_resolution (out err : String) :
    runPythonScript (ProcEvent.close (some 0)) out err = Except.ok ⟨out, err⟩ ∧
    (∀ code : Int, code ≠ 0 →
      runPythonScript (ProcEvent.close (some code)) out err =
        Except.error ⟨"Python script exited with code " ++ toString code, out, err⟩) ∧
    (∀ msg : String, runPythonScript (ProcEvent.spawnError msg) out err =
      Except.error ⟨"Failed to start Python script: " ++ msg, out, err⟩) ∧
    (∀ ev : ProcEvent,
      (∃ r, runPythonScript ev out err = Except.ok r) ↔ ev = ProcEvent.close (some 0)) := by
  refine ⟨rfl, ?_, fun _ => rfl, ?_⟩
  · intro code hc
    simp [runPythonScript, codeStr, hc]
  · intro ev
    constructor
    · rintro ⟨r, hr⟩
      cases ev with
      | close code =>
        by_cases h0 : code = some 0
        · rw [h0]
        · simp [runPythonScript, h0] at hr
      | spawnError m => simp [runPythonScript] at hr
    · rintro rfl
      exact ⟨⟨out, err⟩, rfl⟩

/-- C8 witness: exit code 1 rejects with the message naming the code and
carrying stdout/stderr. -/
theorem runPythonScript_resolution_witness :
    runPythonScript (ProcEvent.close (some 1)) "o" "e" =
      Except.error ⟨"Python script exited with code " ++ toString (1 : Int), "o", "e"⟩ :=
  (runPythonScript_resolution "o" "e").2.1 1 (by decide)

/-- C9: the `analyze_text_direct` schema enum contains exactly
"individual", and when the field is omitted the handler dispatches any
accepted text in individual mode. -/
theorem text_direct_individual_only :
    textDirectModeEnum = ["individual"] ∧
    (∀ t : String, t ≠ "" →
      analyzeTextDirect { text := some t, analysis_mode := none } =
        Except.ok (t, "individual")) := by
  refine ⟨rfl, fun t ht => ?_⟩
  unfold analyzeTextDirect
  simp [ht]

/-- C9 witness: a concrete text dispatches in individual mode. -/
theorem text_direct_individual_only_witness :
    textDirectModeEnum = ["individual"] ∧
    analyzeTextDirect { text := some "hello", analysis_mode := none } =
      Except.ok ("hello", "individual") :=
  ⟨text_direct_individual_only.1, text_direct_individual_only.2 "hello" (by decide)⟩

/-- C10 counterexample: the lookup `helpContent[topic]` reaches
`Object.prototype` — for topic "toString" the inherited function is truthy,
so the handler returns that function value rather than the modes help text. -/
theorem getAnalysisHelp_prototype_leak :
    getAnalysisHelp (some "toString") = JsValue.fn "toString" ∧
    getAnalysisHelp (some "toString") ≠ JsValue.str modesText := by
  refine ⟨rfl, ?_⟩
  have h : getAnalysisHelp (some "toString") = JsValue.fn "toString" := rfl
  rw [h]
  simp

/-- C10 amended: getAnalysisHelp is total; an omitted topic and any topic
that is neither one of the four help keys nor a property name inherited
from `Object.prototype` fall back to the modes help text, but inherited
property names such as "toString" return the inherited function value
instead. -/
theorem getAnalysisHelp_fallback (t : String)
    (h₁ : t ∉ ["modes", "setup", "metadata", "examples"])
    (h₂ : t ∉ objectPrototypeProps) :
    getAnalysisHelp (some t) = JsValue.str modesText ∧
    getAnalysisHelp none = JsValue.str modesText := by
  refine ⟨?_, rfl⟩
  simp only [List.mem_cons, List.mem_singleton, not_or] at h₁
  obtain ⟨hm, hs, hmd, he⟩ := h₁
  unfold getAnalysisHelp helpContent
  simp [hm, hs, hmd, he, h₂]

/-- C10 amended witness: the unknown topic "bogus" and an omitted topic both
fall back to the modes text. -/
theorem getAnalysisHelp_fallback_witness :
    getAnalysisHelp (some "bogus") = JsValue.str modesText ∧
    getAnalysisHelp none = JsValue.str modesText :=
  getAnalysisHelp_fallback "bogus" (by decide) (by decide)

end ContentQuality
